import Mathlib

/-!
Verification development for `src/lambda_function.py` of the
ElasticCache-Schedule repository: an AWS Lambda handler that dispatches on an
`action` field of the incoming event and performs one of three ElastiCache
operations (create_snapshot, delete_replication_group,
restore_replication_group), serializing the remote response with
`json.dumps(..., default=json_serializer)`.

The embedding models Python values (`PyVal`), Python runtime errors that can
escape the handler (`PyErr`), the subset of `datetime` the code uses
(`PyDatetime`), the `json.dumps` serialization pipeline (`pyToJson`,
`renderJson`, `jsonDumps`), the boto3 ElastiCache client as an abstract
record of its four used operations (`ElastiCache`), and each Python function
of the source file under its own name.
-/

set_option maxHeartbeats 1600000

namespace LambdaFn

/-- Errors of the Python runtime that the handler can raise (uncaught).
`ClientError` is modelled separately since the source catches it. -/
inductive PyErr where
  | keyError (k : String)
  | typeError (msg : String)
  | indexError (msg : String)
deriving DecidableEq, Repr

/-- The subset of `datetime.datetime` the code touches: a naive UTC
timestamp with second fields plus microseconds (as produced by
`datetime.utcnow()` and by boto3 response timestamps). -/
structure PyDatetime where
  year : Nat
  month : Nat
  day : Nat
  hour : Nat
  minute : Nat
  second : Nat
  microsecond : Nat
deriving DecidableEq, Repr

/-- Python values as they occur in this program: JSON-style primitives and
containers, `datetime` objects, and `obj tyname` for any other object, where
`tyname` is the text Python renders for `type(obj)` (for example
`<class \x27object\x27>`). -/
inductive PyVal where
  | str (s : String)
  | int (n : Int)
  | bool (b : Bool)
  | none
  | list (xs : List PyVal)
  | dict (kvs : List (String × PyVal))
  | datetime (d : PyDatetime)
  | obj (tyname : String)

/-- JSON values, the target of `json.dumps`. -/
inductive Json where
  | str (s : String)
  | int (n : Int)
  | bool (b : Bool)
  | null
  | arr (xs : List Json)
  | obj (kvs : List (String × Json))

/-- Python truthiness (`bool(v)`), as used by `if not action:` etc. -/
def truthy : PyVal → Bool
  | .str s => !(s == "")
  | .int n => !(n == 0)
  | .bool b => b
  | .none => false
  | .list xs => !xs.isEmpty
  | .dict kvs => !kvs.isEmpty
  | .datetime _ => true
  | .obj _ => true

/-- The text Python renders for `type(v)` on the values of this model.
For `obj` the stored class text is used verbatim. -/
def pyTypeName : PyVal → String
  | .str _ => "<class \x27str\x27>"
  | .int _ => "<class \x27int\x27>"
  | .bool _ => "<class \x27bool\x27>"
  | .none => "<class \x27NoneType\x27>"
  | .list _ => "<class \x27list\x27>"
  | .dict _ => "<class \x27dict\x27>"
  | .datetime _ => "<class \x27datetime.datetime\x27>"
  | .obj t => t

/-- Two-digit zero-padded decimal, the `%m %d %H %M %S` (and `%02d`)
rendering; agrees with Python for every argument below 100, and all callers
pass calendar fields. -/
def pad2 (n : Nat) : String :=
  String.mk [Nat.digitChar (n / 10 % 10), Nat.digitChar (n % 10)]

/-- Four-digit zero-padded decimal, the `%Y` rendering for years
1000..9999 (the only years `datetime.utcnow()` produces). -/
def pad4 (n : Nat) : String :=
  String.mk [Nat.digitChar (n / 1000 % 10), Nat.digitChar (n / 100 % 10),
             Nat.digitChar (n / 10 % 10), Nat.digitChar (n % 10)]

/-- Six-digit zero-padded decimal, the microseconds rendering of
`datetime.isoformat`. -/
def pad6 (n : Nat) : String :=
  String.mk [Nat.digitChar (n / 100000 % 10), Nat.digitChar (n / 10000 % 10),
             Nat.digitChar (n / 1000 % 10), Nat.digitChar (n / 100 % 10),
             Nat.digitChar (n / 10 % 10), Nat.digitChar (n % 10)]

/-- `d.strftime("%Y%m%d-%H%M%S")` as called by `generate_snapshot_name`. -/
def PyDatetime.strftimeYmdHMS (d : PyDatetime) : String :=
  pad4 d.year ++ pad2 d.month ++ pad2 d.day ++ "-" ++
    pad2 d.hour ++ pad2 d.minute ++ pad2 d.second

/-- `d.isoformat()`: ISO-8601 extended format, with the `.ffffff` suffix
exactly when microseconds are nonzero (naive datetimes carry no offset). -/
def PyDatetime.isoformat (d : PyDatetime) : String :=
  pad4 d.year ++ "-" ++ pad2 d.month ++ "-" ++ pad2 d.day ++ "T" ++
    pad2 d.hour ++ ":" ++ pad2 d.minute ++ ":" ++ pad2 d.second ++
    (if d.microsecond == 0 then "" else "." ++ pad6 d.microsecond)

/-- Field ranges of a real `datetime` value (as `datetime.utcnow()` and
boto3 timestamps always satisfy). -/
def PyDatetime.valid (d : PyDatetime) : Prop :=
  1000 ≤ d.year ∧ d.year ≤ 9999 ∧ 1 ≤ d.month ∧ d.month ≤ 12 ∧
    1 ≤ d.day ∧ d.day ≤ 31 ∧ d.hour ≤ 23 ∧ d.minute ≤ 59 ∧
    d.second ≤ 59 ∧ d.microsecond ≤ 999999

instance (d : PyDatetime) : Decidable d.valid := by
  unfold PyDatetime.valid; infer_instance

/-- Python `str(v)` for the values an event field can hold; primitives are
exact, container/object renderings approximate Python `repr` (no claim
exercises them). -/
def pyStr : PyVal → String
  | .str s => s
  | .int n => toString n
  | .bool b => if b then "True" else "False"
  | .none => "None"
  | .list _ => "[...]"
  | .dict _ => "\x7b...\x7d"
  | .datetime d =>
      pad4 d.year ++ "-" ++ pad2 d.month ++ "-" ++ pad2 d.day ++ " " ++
        pad2 d.hour ++ ":" ++ pad2 d.minute ++ ":" ++ pad2 d.second
  | .obj t => t

/-- `v[k]` for a string key `k`: dict lookup (KeyError when absent),
TypeError on non-subscriptable or integer-indexed values. -/
def subscriptStr (v : PyVal) (k : String) : Except PyErr PyVal :=
  match v with
  | .dict kvs =>
      match kvs.lookup k with
      | some w => .ok w
      | Option.none => .error (.keyError k)
  | .list _ => .error (.typeError "list indices must be integers or slices, not str")
  | .str _ => .error (.typeError "string indices must be integers")
  | w => .error (.typeError ("\x27" ++ pyTypeName w ++ "\x27 object is not subscriptable"))

/-- `v[i]` for a nonnegative integer index `i`. -/
def subscriptNat (v : PyVal) (i : Nat) : Except PyErr PyVal :=
  match v with
  | .list xs =>
      match xs.get? i with
      | some w => .ok w
      | Option.none => .error (.indexError "list index out of range")
  | .str s =>
      match s.data.get? i with
      | some c => .ok (.str (String.mk [c]))
      | Option.none => .error (.indexError "string index out of range")
  | .dict _ => .error (.keyError (toString i))
  | w => .error (.typeError ("\x27" ++ pyTypeName w ++ "\x27 object is not subscriptable"))

/-- One hexadecimal digit (lowercase, as in Python \uXXXX escapes). -/
def hexDigit (m : Nat) : Char := Nat.digitChar (m % 16)

/-- Four-digit lowercase hexadecimal, for \uXXXX escapes. -/
def hex4 (n : Nat) : String :=
  String.mk [hexDigit (n / 4096), hexDigit (n / 256), hexDigit (n / 16), hexDigit n]

/-- The escape `json.dumps` (default `ensure_ascii=True`) applies to one
character of a string: short escapes for quote, backslash and common
controls, \uXXXX for other controls and all non-ASCII characters below
0x10000 (astral characters, which need surrogate pairs and never occur
here, are out of the model). -/
def escapeChar (c : Char) : String :=
  if c == Char.ofNat 34 then "\\\""
  else if c == Char.ofNat 92 then "\\\\"
  else if c == Char.ofNat 10 then "\\n"
  else if c == Char.ofNat 9 then "\\t"
  else if c == Char.ofNat 13 then "\\r"
  else if c == Char.ofNat 8 then "\\b"
  else if c == Char.ofNat 12 then "\\f"
  else if c.toNat < 32 || c.toNat > 126 then "\\u" ++ hex4 c.toNat
  else String.mk [c]

/-- The JSON rendering of a string: double quotes around the escaped text. -/
def jsonQuote (s : String) : String :=
  "\"" ++ String.join (s.data.map escapeChar) ++ "\""

mutual

/-- Text rendering of a JSON value, as `json.dumps` prints it (default
separators: comma-space between items, colon-space inside object items). -/
def renderJson : Json → String
  | .str s => jsonQuote s
  | .int n => toString n
  | .bool b => if b then "true" else "false"
  | .null => "null"
  | .arr xs => "[" ++ renderArr xs ++ "]"
  | .obj kvs => "\x7b" ++ renderObj kvs ++ "\x7d"

/-- Comma-separated rendering of array elements. -/
def renderArr : List Json → String
  | [] => ""
  | [x] => renderJson x
  | x :: y :: xs => renderJson x ++ ", " ++ renderArr (y :: xs)

/-- Comma-separated rendering of object members. -/
def renderObj : List (String × Json) → String
  | [] => ""
  | [(k, v)] => jsonQuote k ++ ": " ++ renderJson v
  | (k, v) :: m :: kvs => jsonQuote k ++ ": " ++ renderJson v ++ ", " ++ renderObj (m :: kvs)

end

/-- `json_serializer(obj)` (src/lambda_function.py:141-145): `datetime`
values become their `isoformat()` text, anything else raises
`TypeError(f"Type \x7btype(obj)\x7d not serializable")`. -/
def json_serializer (obj : PyVal) : Except PyErr PyVal :=
  match obj with
  | .datetime d => .ok (.str d.isoformat)
  | v => .error (.typeError ("Type " ++ pyTypeName v ++ " not serializable"))

/-- Serialization of the (primitive) value returned by the `default`
callback: `json.dumps` re-serializes whatever `default` returns;
`json_serializer` only ever returns strings, so one non-recursive pass over
primitives is a faithful model of that re-serialization. -/
def primToJson : PyVal → Except PyErr Json
  | .str s => .ok (.str s)
  | .int n => .ok (.int n)
  | .bool b => .ok (.bool b)
  | .none => .ok .null
  | v => .error (.typeError ("default returned unhandled " ++ pyTypeName v))

mutual

/-- The value-level behaviour of `json.dumps(v, default=json_serializer)`:
primitives and containers are serialized natively; any other value is passed
to the `default` callback `json_serializer`, whose result is serialized (or
whose `TypeError` propagates). -/
def pyToJson : PyVal → Except PyErr Json
  | .str s => .ok (.str s)
  | .int n => .ok (.int n)
  | .bool b => .ok (.bool b)
  | .none => .ok .null
  | .list xs => (pyToJsonList xs).map .arr
  | .dict kvs => (pyToJsonKVs kvs).map .obj
  | .datetime d => (json_serializer (.datetime d)).bind primToJson
  | .obj t => (json_serializer (.obj t)).bind primToJson

/-- Elementwise serialization of a list, stopping at the first error. -/
def pyToJsonList : List PyVal → Except PyErr (List Json)
  | [] => .ok []
  | x :: xs => do
      let y ← pyToJson x
      let ys ← pyToJsonList xs
      pure (y :: ys)

/-- Memberwise serialization of a dict, stopping at the first error. -/
def pyToJsonKVs : List (String × PyVal) → Except PyErr (List (String × Json))
  | [] => .ok []
  | (k, v) :: kvs => do
      let w ← pyToJson v
      let ws ← pyToJsonKVs kvs
      pure ((k, w) :: ws)

end

/-- `json.dumps(v, default=json_serializer)`: serialize to a JSON tree and
render it to text; a `TypeError` from the serializer propagates. -/
def jsonDumps (v : PyVal) : Except PyErr String :=
  (pyToJson v).map renderJson

/-- `botocore.exceptions.ClientError`, abstracted to its `str(e)` text. -/
structure ClientError where
  msg : String
deriving DecidableEq, Repr

/-- The keyword arguments of the `elasticache.create_replication_group`
call made by `create_replication_group_from_snapshot`
(src/lambda_function.py:120-135), in source order. -/
structure CreateReplicationGroupParams where
  ReplicationGroupId : PyVal
  ReplicationGroupDescription : String
  SnapshotName : PyVal
  CacheNodeType : String
  Engine : String
  Port : Nat
  NodeGroupId : String
  PrimaryAvailabilityZone : String
  AutomaticFailoverEnabled : Bool
  MultiAZEnabled : Bool

/-- The boto3 ElastiCache client, as the record of the four operations this
program calls. Each operation either returns a response value or raises a
`ClientError`; the remote service is an external collaborator, so its
behaviour is a parameter of every theorem. -/
structure ElastiCache where
  create_snapshot : PyVal → String → Except ClientError PyVal
  delete_replication_group : PyVal → Except ClientError PyVal
  describe_snapshots : PyVal → Except ClientError PyVal
  create_replication_group : CreateReplicationGroupParams → Except ClientError PyVal

/-- `generate_snapshot_name(cache_cluster_id)` (lines 78-81), with
`datetime.utcnow()` passed explicitly as `now`. -/
def generate_snapshot_name (cache_cluster_id : PyVal) (now : PyDatetime) : String :=
  pyStr cache_cluster_id ++ "-snapshot-" ++ now.strftimeYmdHMS

/-- `create_snapshot(cache_cluster_id, snapshot_name)` (lines 83-93): call
the remote service; a `ClientError` is caught and `str(e)` returned. -/
def create_snapshot (ec : ElastiCache) (cache_cluster_id : PyVal)
    (snapshot_name : String) : PyVal :=
  match ec.create_snapshot cache_cluster_id snapshot_name with
  | .ok response => response
  | .error e => .str e.msg

/-- `delete_replication_group(replication_group_id)` (lines 95-103). -/
def delete_replication_group (ec : ElastiCache) (replication_group_id : PyVal) : PyVal :=
  match ec.delete_replication_group replication_group_id with
  | .ok response => response
  | .error e => .str e.msg

/-- `get_snapshot(cache_cluster_id)` (lines 105-115): describe the cluster
snapshots; only `ClientError` is caught (falling through to `return None`),
so a missing `Snapshots` key or a non-subscriptable entry raises out of the
function. Returns the first entry name, or `None`. -/
def get_snapshot (ec : ElastiCache) (cache_cluster_id : PyVal) : Except PyErr PyVal :=
  match ec.describe_snapshots cache_cluster_id with
  | .error _ => .ok .none
  | .ok snapshots => do
      let snaps ← subscriptStr snapshots "Snapshots"
      if truthy snaps then
        let first ← subscriptNat snaps 0
        let name ← subscriptStr first "SnapshotName"
        pure name
      else
        pure .none

/-- The fixed restore configuration of
`create_replication_group_from_snapshot` (lines 120-135). -/
def restoreParams (replication_group_id snapshot_name : PyVal) :
    CreateReplicationGroupParams where
  ReplicationGroupId := replication_group_id
  ReplicationGroupDescription := "Restored from snapshot"
  SnapshotName := snapshot_name
  CacheNodeType := "cache.t4g.small"
  Engine := "redis"
  Port := 6379
  NodeGroupId := "0001"
  PrimaryAvailabilityZone := "ap-south-1a"
  AutomaticFailoverEnabled := false
  MultiAZEnabled := false

/-- `create_replication_group_from_snapshot(replication_group_id,
snapshot_name)` (lines 117-139): `ClientError` is caught and `str(e)`
returned. -/
def create_replication_group_from_snapshot (ec : ElastiCache)
    (replication_group_id snapshot_name : PyVal) : PyVal :=
  match ec.create_replication_group (restoreParams replication_group_id snapshot_name) with
  | .ok response => response
  | .error e => .str e.msg

/-- The Lambda event, holding the three fields the handler reads
(`event.get` yields `None` for an absent field; any other key is unread). -/
structure Event where
  action : Option PyVal
  CacheClusterId : Option PyVal
  ReplicationGroupId : Option PyVal

/-- `event.get(k)`: the stored value, or `None` when the field is absent. -/
def getOr (o : Option PyVal) : PyVal :=
  match o with
  | some v => v
  | Option.none => .none

/-- Python `v == "lit"` for a string literal: true only for an equal
string. -/
def pyEqStr (v : PyVal) (lit : String) : Bool :=
  match v with
  | .str s => s == lit
  | _ => false

/-- The handler response dictionary `\x7b"statusCode": ..., "body": ...\x7d`. -/
structure Response where
  statusCode : Nat
  body : String
deriving DecidableEq, Repr

/-- `lambda_handler(event, context)` (lines 9-76). The boto3 client `ec` and
the current UTC time `now` (read by `datetime.utcnow()` inside
`generate_snapshot_name`) are explicit parameters; `context` is unread in
the source and omitted. An uncaught Python error (KeyError/TypeError/
IndexError) is the `Except.error` case. -/
def lambda_handler (ec : ElastiCache) (now : PyDatetime) (event : Event) :
    Except PyErr Response :=
  let action := getOr event.action
  let cache_cluster_id := getOr event.CacheClusterId
  let replication_group_id := getOr event.ReplicationGroupId
  if !truthy action then
    .ok ⟨400, "Action is required in the event payload."⟩
  else if pyEqStr action "create_snapshot" then
    if !truthy cache_cluster_id then
      .ok ⟨400, "CacheClusterId is required for creating a snapshot."⟩
    else
      let snapshot_name := generate_snapshot_name cache_cluster_id now
      let create_snapshot_response := create_snapshot ec cache_cluster_id snapshot_name
      (jsonDumps create_snapshot_response).map (fun b => ⟨200, b⟩)
  else if pyEqStr action "delete_replication_group" then
    if !truthy replication_group_id then
      .ok ⟨400, "ReplicationGroupId is required for deleting a replication group."⟩
    else
      let delete_response := delete_replication_group ec replication_group_id
      (jsonDumps delete_response).map (fun b => ⟨200, b⟩)
  else if pyEqStr action "restore_replication_group" then
    if !truthy cache_cluster_id || !truthy replication_group_id then
      .ok ⟨400, "CacheClusterId and ReplicationGroupId are required for restoring a replication group."⟩
    else do
      let snapshot_name ← get_snapshot ec cache_cluster_id
      if truthy snapshot_name then
        let restore_response :=
          create_replication_group_from_snapshot ec replication_group_id snapshot_name
        (jsonDumps restore_response).map (fun b => ⟨200, b⟩)
      else
        .ok ⟨400, "No snapshots found for cache cluster " ++ pyStr cache_cluster_id⟩
  else
    .ok ⟨400, "Invalid action specified."⟩

mutual

/-- Whether a value contains (at any depth) an object that is not of a
primitive, container, or temporal type — i.e. one the serializer must
reject. -/
def hasObj : PyVal → Bool
  | .list xs => hasObjList xs
  | .dict kvs => hasObjKVs kvs
  | .obj _ => true
  | _ => false

/-- `hasObj` over the elements of a list. -/
def hasObjList : List PyVal → Bool
  | [] => false
  | x :: xs => hasObj x || hasObjList xs

/-- `hasObj` over the values of a dict. -/
def hasObjKVs : List (String × PyVal) → Bool
  | [] => false
  | (_, v) :: kvs => hasObj v || hasObjKVs kvs

end

mutual

/-- Structural correspondence between a Python value and its serialized
JSON tree: primitives map to equal leaves, `datetime` maps to its ISO-8601
text, lists map elementwise and dicts memberwise with keys unchanged.
This is the spec-side statement that serialization renders temporal values
as ISO-8601 text and leaves the rest of the structure unchanged. -/
def similar : PyVal → Json → Bool
  | .str s, .str s2 => s == s2
  | .int n, .int n2 => n == n2
  | .bool b, .bool b2 => b == b2
  | .none, .null => true
  | .datetime d, .str s2 => s2 == d.isoformat
  | .list xs, .arr ys => similarList xs ys
  | .dict kvs, .obj jvs => similarKVs kvs jvs
  | _, _ => false

/-- Elementwise `similar` on lists of equal length. -/
def similarList : List PyVal → List Json → Bool
  | [], [] => true
  | x :: xs, y :: ys => similar x y && similarList xs ys
  | _, _ => false

/-- Memberwise `similar` on dicts: equal keys, similar values. -/
def similarKVs : List (String × PyVal) → List (String × Json) → Bool
  | [], [] => true
  | (k, v) :: kvs, (k2, w) :: jvs => k == k2 && similar v w && similarKVs kvs jvs
  | _, _ => false

end

/-- All characters of a string are decimal digits (the `\d` class of the
spec's snapshot-name pattern). -/
def isDigitStr (s : String) : Bool := s.data.all Char.isDigit

/-! Concrete fixtures used by witness and counterexample theorems. -/

/-- A concrete timestamp standing in for `datetime.utcnow()`. -/
def dtW : PyDatetime := ⟨2026, 10, 12, 3, 4, 5, 0⟩

/-- A listing with two snapshots, deliberately ordered non-recency-first. -/
def snapListing : PyVal :=
  .dict [("Snapshots", .list
    [.dict [("SnapshotName", .str "old-snap")],
     .dict [("SnapshotName", .str "new-snap")]])]

/-- A client on which every mutating call fails with a `ClientError` while
the snapshot listing succeeds. -/
def ecAllErr : ElastiCache where
  create_snapshot := fun _ _ => .error ⟨"boom"⟩
  delete_replication_group := fun _ => .error ⟨"boom"⟩
  describe_snapshots := fun _ => .ok snapListing
  create_replication_group := fun _ => .error ⟨"boom"⟩

/-- A client whose create-replication-group call echoes back the snapshot
name it was given, exposing which snapshot was selected. -/
def ecEcho : ElastiCache where
  create_snapshot := fun _ _ => .ok (.str "ok")
  delete_replication_group := fun _ => .ok (.str "ok")
  describe_snapshots := fun _ => .ok snapListing
  create_replication_group := fun p => .ok p.SnapshotName

/-- A client whose snapshot listing lacks the `Snapshots` key. -/
def ecNoKey : ElastiCache where
  create_snapshot := fun _ _ => .ok (.str "ok")
  delete_replication_group := fun _ => .ok (.str "ok")
  describe_snapshots := fun _ => .ok (.dict [])
  create_replication_group := fun p => .ok p.SnapshotName

/-- A client whose snapshot listing is present but empty. -/
def ecEmptyList : ElastiCache where
  create_snapshot := fun _ _ => .ok (.str "ok")
  delete_replication_group := fun _ => .ok (.str "ok")
  describe_snapshots := fun _ => .ok (.dict [("Snapshots", .list [])])
  create_replication_group := fun p => .ok p.SnapshotName

/-- A client whose snapshot-listing call itself raises a `ClientError`. -/
def ecDescribeErr : ElastiCache where
  create_snapshot := fun _ _ => .ok (.str "ok")
  delete_replication_group := fun _ => .ok (.str "ok")
  describe_snapshots := fun _ => .error ⟨"denied"⟩
  create_replication_group := fun p => .ok p.SnapshotName

/-- A client whose create-snapshot response contains a value no branch of
the serializer accepts. -/
def ecObjResp : ElastiCache where
  create_snapshot := fun _ _ => .ok (.dict [("Bad", .obj "<class \x27object\x27>")])
  delete_replication_group := fun _ => .ok (.str "ok")
  describe_snapshots := fun _ => .ok snapListing
  create_replication_group := fun p => .ok p.SnapshotName

/-! Theorems. -/

/-- C7: a request with no `action` field gets exactly the missing-action
400 response, whatever the client, the time and the other fields. -/
theorem missing_action_returns_400 (ec : ElastiCache) (now : PyDatetime)
    (c r : Option PyVal) :
    lambda_handler ec now ⟨Option.none, c, r⟩ =
      .ok ⟨400, "Action is required in the event payload."⟩ := by
  rfl

/-- C8: a request whose `action` is present (truthy) but not one of the
three recognized strings — a different or case-variant string, or a truthy
non-string value — gets exactly the invalid-action 400 response; the client
is arbitrary, so no remote call can influence the result. -/
theorem invalid_action_returns_400 (ec : ElastiCache) (now : PyDatetime) :
    (∀ s c r, s ≠ "" → s ≠ "create_snapshot" →
      s ≠ "delete_replication_group" → s ≠ "restore_replication_group" →
      lambda_handler ec now ⟨some (.str s), c, r⟩ =
        .ok ⟨400, "Invalid action specified."⟩) ∧
    (∀ v c r, truthy v = true → (∀ s, v ≠ .str s) →
      lambda_handler ec now ⟨some v, c, r⟩ =
        .ok ⟨400, "Invalid action specified."⟩) := by
  constructor
  · intro s c r h0 h1 h2 h3
    simp [lambda_handler, getOr, truthy, pyEqStr, h0, h1, h2, h3]
  · intro v c r hv hns
    cases v with
    | str s => exact absurd rfl (hns s)
    | int m => simp [lambda_handler, getOr, pyEqStr, hv]
    | bool b => simp [lambda_handler, getOr, pyEqStr, hv]
    | none => simp [truthy] at hv
    | list xs => simp [lambda_handler, getOr, pyEqStr, hv]
    | dict kvs => simp [lambda_handler, getOr, pyEqStr, hv]
    | datetime d => simp [lambda_handler, getOr, pyEqStr, hv]
    | obj t => simp [lambda_handler, getOr, pyEqStr, hv]

/-- Witness for C8 at the case-variant action `Create_Snapshot`. -/
theorem invalid_action_returns_400_witness :
    lambda_handler ecEcho dtW ⟨some (.str "Create_Snapshot"), some (.str "cc"), Option.none⟩ =
      .ok ⟨400, "Invalid action specified."⟩ :=
  (invalid_action_returns_400 ecEcho dtW).1 "Create_Snapshot" (some (.str "cc")) Option.none
    (by decide) (by decide) (by decide) (by decide)

/-- C4: for each recognized action, a request missing a required field gets
that action's 400 validation response; the client is arbitrary on every
conjunct, so the remote service is never consulted. -/
theorem missing_fields_return_400 (ec : ElastiCache) (now : PyDatetime) :
    (∀ r, lambda_handler ec now ⟨some (.str "create_snapshot"), Option.none, r⟩ =
      .ok ⟨400, "CacheClusterId is required for creating a snapshot."⟩) ∧
    (∀ c, lambda_handler ec now ⟨some (.str "delete_replication_group"), c, Option.none⟩ =
      .ok ⟨400, "ReplicationGroupId is required for deleting a replication group."⟩) ∧
    (∀ r, lambda_handler ec now ⟨some (.str "restore_replication_group"), Option.none, r⟩ =
      .ok ⟨400, "CacheClusterId and ReplicationGroupId are required for restoring a replication group."⟩) ∧
    (∀ c, lambda_handler ec now ⟨some (.str "restore_replication_group"), c, Option.none⟩ =
      .ok ⟨400, "CacheClusterId and ReplicationGroupId are required for restoring a replication group."⟩) := by
  refine ⟨fun r => rfl, fun c => rfl, fun r => rfl, fun c => ?_⟩
  simp [lambda_handler, getOr, truthy, pyEqStr]

/-- C10: an `action`, `CacheClusterId` or `ReplicationGroupId` field that is
present but the empty string is handled exactly like an absent field: the
handler's result is unchanged by replacing it with an absent field, an
empty action gets the missing-action 400, and an empty required identifier
gets the action's missing-field 400 (for every client, so no remote call is
made). -/
theorem empty_string_fields_like_absent (ec : ElastiCache) (now : PyDatetime) :
    (∀ c r, lambda_handler ec now ⟨some (.str ""), c, r⟩ =
      lambda_handler ec now ⟨Option.none, c, r⟩) ∧
    (∀ a r, lambda_handler ec now ⟨a, some (.str ""), r⟩ =
      lambda_handler ec now ⟨a, Option.none, r⟩) ∧
    (∀ a c, lambda_handler ec now ⟨a, c, some (.str "")⟩ =
      lambda_handler ec now ⟨a, c, Option.none⟩) ∧
    (∀ c r, lambda_handler ec now ⟨some (.str ""), c, r⟩ =
      .ok ⟨400, "Action is required in the event payload."⟩) ∧
    (∀ r, lambda_handler ec now ⟨some (.str "create_snapshot"), some (.str ""), r⟩ =
      .ok ⟨400, "CacheClusterId is required for creating a snapshot."⟩) ∧
    (∀ c, lambda_handler ec now ⟨some (.str "delete_replication_group"), c, some (.str "")⟩ =
      .ok ⟨400, "ReplicationGroupId is required for deleting a replication group."⟩) ∧
    (∀ r, lambda_handler ec now ⟨some (.str "restore_replication_group"), some (.str ""), r⟩ =
      .ok ⟨400, "CacheClusterId and ReplicationGroupId are required for restoring a replication group."⟩) ∧
    (∀ c, lambda_handler ec now ⟨some (.str "restore_replication_group"), c, some (.str "")⟩ =
      .ok ⟨400, "CacheClusterId and ReplicationGroupId are required for restoring a replication group."⟩) := by
  refine ⟨fun c r => rfl, fun a r => ?_, fun a c => ?_, fun c r => rfl,
    fun r => rfl, fun c => ?_, fun r => rfl, fun c => ?_⟩ <;>
    simp [lambda_handler, getOr, truthy, pyEqStr]

theorem digitChar_isDigit : ∀ m < 10, (Nat.digitChar m).isDigit = true := by decide

theorem isDigitStr_pad2 (n : Nat) : isDigitStr (pad2 n) = true := by
  simp [isDigitStr, pad2]
  exact ⟨digitChar_isDigit _ (Nat.mod_lt _ (by norm_num)),
         digitChar_isDigit _ (Nat.mod_lt _ (by norm_num))⟩

theorem isDigitStr_pad4 (n : Nat) : isDigitStr (pad4 n) = true := by
  simp [isDigitStr, pad4]
  exact ⟨digitChar_isDigit _ (Nat.mod_lt _ (by norm_num)),
         digitChar_isDigit _ (Nat.mod_lt _ (by norm_num)),
         digitChar_isDigit _ (Nat.mod_lt _ (by norm_num)),
         digitChar_isDigit _ (Nat.mod_lt _ (by norm_num))⟩

theorem isDigitStr_append (s t : String) :
    isDigitStr (s ++ t) = (isDigitStr s && isDigitStr t) := by
  simp [isDigitStr, String.data_append, List.all_append]

theorem pad2_length (n : Nat) : (pad2 n).length = 2 := rfl

theorem pad4_length (n : Nat) : (pad4 n).length = 4 := rfl

/-- C5: for a string `CacheClusterId` and a well-formed generation time,
the generated snapshot name is exactly
`ccid ++ "-snapshot-" ++ d8 ++ "-" ++ d6` where `d8` is the eight-digit
`YYYYMMDD` and `d6` the six-digit `HHMMSS` rendering of that UTC time —
i.e. the name matches the pattern of the spec with the time's digits. -/
theorem snapshot_name_matches_pattern (ccid : String) (now : PyDatetime)
    (_h : now.valid) :
    ∃ d8 d6 : String,
      generate_snapshot_name (.str ccid) now = ccid ++ "-snapshot-" ++ d8 ++ "-" ++ d6 ∧
      d8.length = 8 ∧ d6.length = 6 ∧
      isDigitStr d8 = true ∧ isDigitStr d6 = true ∧
      d8 = pad4 now.year ++ pad2 now.month ++ pad2 now.day ∧
      d6 = pad2 now.hour ++ pad2 now.minute ++ pad2 now.second := by
  refine ⟨pad4 now.year ++ pad2 now.month ++ pad2 now.day,
          pad2 now.hour ++ pad2 now.minute ++ pad2 now.second,
          ?_, ?_, ?_, ?_, ?_, rfl, rfl⟩
  · simp [generate_snapshot_name, pyStr, PyDatetime.strftimeYmdHMS, String.append_assoc]
  · simp [String.length_append, pad2_length, pad4_length]
  · simp [String.length_append, pad2_length]
  · simp [isDigitStr_append, isDigitStr_pad2, isDigitStr_pad4]
  · simp [isDigitStr_append, isDigitStr_pad2]

/-- Witness for C5 at the concrete time `dtW`. -/
theorem snapshot_name_matches_pattern_witness :
    dtW.valid ∧
    ∃ d8 d6 : String,
      generate_snapshot_name (.str "cc") dtW = "cc" ++ "-snapshot-" ++ d8 ++ "-" ++ d6 ∧
      d8.length = 8 ∧ d6.length = 6 ∧
      isDigitStr d8 = true ∧ isDigitStr d6 = true ∧
      d8 = pad4 dtW.year ++ pad2 dtW.month ++ pad2 dtW.day ∧
      d6 = pad2 dtW.hour ++ pad2 dtW.minute ++ pad2 dtW.second :=
  ⟨by decide, snapshot_name_matches_pattern "cc" dtW (by decide)⟩

theorem truthy_action_create : truthy (.str "create_snapshot") = true := rfl

theorem truthy_action_delete : truthy (.str "delete_replication_group") = true := rfl

theorem truthy_action_restore : truthy (.str "restore_replication_group") = true := rfl

theorem truthy_none_false : truthy PyVal.none = false := rfl

/-- C1: on each of the three actions, when the required fields are present
(truthy) and the remote call fails with a `ClientError`, the handler still
returns `statusCode` 200 and the body is the JSON stringification of the
error text (`json.dumps(str(e))`) — the status is never flipped to an
error code. -/
theorem remote_error_reported_as_200 (ec : ElastiCache) (now : PyDatetime) :
    (∀ c r e, truthy c = true →
      ec.create_snapshot c (generate_snapshot_name c now) = .error e →
      lambda_handler ec now ⟨some (.str "create_snapshot"), some c, r⟩ =
        .ok ⟨200, jsonQuote e.msg⟩) ∧
    (∀ c r e, truthy r = true →
      ec.delete_replication_group r = .error e →
      lambda_handler ec now ⟨some (.str "delete_replication_group"), c, some r⟩ =
        .ok ⟨200, jsonQuote e.msg⟩) ∧
    (∀ c r nm e, truthy c = true → truthy r = true →
      get_snapshot ec c = .ok nm → truthy nm = true →
      ec.create_replication_group (restoreParams r nm) = .error e →
      lambda_handler ec now ⟨some (.str "restore_replication_group"), some c, some r⟩ =
        .ok ⟨200, jsonQuote e.msg⟩) := by
  refine ⟨?_, ?_, ?_⟩
  · intro c r e hc he
    simp [lambda_handler, getOr, truthy_action_create, pyEqStr, hc, create_snapshot, he,
      jsonDumps, pyToJson, renderJson, Except.map]
  · intro c r e hr he
    simp [lambda_handler, getOr, truthy_action_delete, pyEqStr, hr,
      delete_replication_group, he, jsonDumps, pyToJson, renderJson, Except.map]
  · intro c r nm e hc hr hs hnm he
    simp [lambda_handler, getOr, truthy_action_restore, pyEqStr, hc, hr, hs, hnm,
      Bind.bind, Except.bind, create_replication_group_from_snapshot, he, jsonDumps,
      pyToJson, renderJson, Except.map]

/-- Witness for C1: on the client whose every mutating call raises
`ClientError("boom")`, all three actions answer 200 with body
`"\x22boom\x22"`. -/
theorem remote_error_reported_as_200_witness :
    lambda_handler ecAllErr dtW ⟨some (.str "create_snapshot"), some (.str "cc"), Option.none⟩ =
      .ok ⟨200, "\"boom\""⟩ ∧
    lambda_handler ecAllErr dtW ⟨some (.str "delete_replication_group"), Option.none, some (.str "rg")⟩ =
      .ok ⟨200, "\"boom\""⟩ ∧
    lambda_handler ecAllErr dtW ⟨some (.str "restore_replication_group"), some (.str "cc"), some (.str "rg")⟩ =
      .ok ⟨200, "\"boom\""⟩ := by
  refine ⟨?_, ?_, ?_⟩
  · exact ((remote_error_reported_as_200 ecAllErr dtW).1 (.str "cc") Option.none
      ⟨"boom"⟩ rfl rfl).trans rfl
  · exact ((remote_error_reported_as_200 ecAllErr dtW).2.1 Option.none (.str "rg")
      ⟨"boom"⟩ rfl rfl).trans rfl
  · exact ((remote_error_reported_as_200 ecAllErr dtW).2.2 (.str "cc") (.str "rg")
      (.str "old-snap") ⟨"boom"⟩ rfl rfl rfl rfl rfl).trans rfl

/-- C2 (amended): with both identifiers present, a restore returns exactly
the no-snapshots 400 response (and, the client being otherwise arbitrary,
never reaches the create-from-snapshot call) when the listing's
`Snapshots` entry is present but empty (or otherwise falsy), and likewise
when the lookup call itself raises a `ClientError`. (A listing lacking the
`Snapshots` key instead raises an uncaught KeyError — see the
counterexample.) -/
theorem restore_no_snapshots_returns_400 (ec : ElastiCache) (now : PyDatetime) :
    (∀ c r sv lv, truthy c = true → truthy r = true →
      ec.describe_snapshots c = .ok sv →
      subscriptStr sv "Snapshots" = .ok lv → truthy lv = false →
      lambda_handler ec now ⟨some (.str "restore_replication_group"), some c, some r⟩ =
        .ok ⟨400, "No snapshots found for cache cluster " ++ pyStr c⟩) ∧
    (∀ c r e, truthy c = true → truthy r = true →
      ec.describe_snapshots c = .error e →
      lambda_handler ec now ⟨some (.str "restore_replication_group"), some c, some r⟩ =
        .ok ⟨400, "No snapshots found for cache cluster " ++ pyStr c⟩) := by
  constructor
  · intro c r sv lv hc hr hd hsub hlv
    simp [lambda_handler, getOr, truthy_action_restore, pyEqStr, hc, hr, get_snapshot,
      hd, hsub, hlv, truthy_none_false, Bind.bind, Except.bind, pure, Except.pure]
  · intro c r e hc hr hd
    simp [lambda_handler, getOr, truthy_action_restore, pyEqStr, hc, hr, get_snapshot,
      hd, truthy_none_false, Bind.bind, Except.bind, pure, Except.pure]

/-- Witness for C2 (amended): the empty-listing client and the
failing-lookup client both produce exactly the no-snapshots 400. -/
theorem restore_no_snapshots_returns_400_witness :
    lambda_handler ecEmptyList dtW ⟨some (.str "restore_replication_group"), some (.str "cc"), some (.str "rg")⟩ =
      .ok ⟨400, "No snapshots found for cache cluster cc"⟩ ∧
    lambda_handler ecDescribeErr dtW ⟨some (.str "restore_replication_group"), some (.str "cc"), some (.str "rg")⟩ =
      .ok ⟨400, "No snapshots found for cache cluster cc"⟩ := by
  constructor
  · exact ((restore_no_snapshots_returns_400 ecEmptyList dtW).1 (.str "cc") (.str "rg")
      (.dict [("Snapshots", .list [])]) (.list []) rfl rfl rfl rfl rfl).trans rfl
  · exact ((restore_no_snapshots_returns_400 ecDescribeErr dtW).2 (.str "cc") (.str "rg")
      ⟨"denied"⟩ rfl rfl rfl).trans rfl

/-- Counterexample to C2 as stated: when the `Snapshots` list is missing
from the listing response, the handler does not return the 400 response the
claim requires — the subscript raises an uncaught KeyError that escapes the
dispatch. -/
theorem restore_missing_list_counterexample :
    lambda_handler ecNoKey dtW ⟨some (.str "restore_replication_group"), some (.str "cc"), some (.str "rg")⟩ =
      .error (.keyError "Snapshots") ∧
    (Except.error (.keyError "Snapshots") : Except PyErr Response) ≠
      .ok ⟨400, "No snapshots found for cache cluster cc"⟩ := by
  exact ⟨rfl, by simp⟩

/-- C3: whenever the listing holds one or more snapshots, the snapshot name
handed to the create-replication-group call is the `SnapshotName` of the
FIRST entry `x` — the handler's result is exactly that of restoring from
`x`'s name, whatever the remaining entries `xs` are, so no recency sort
takes place. -/
theorem restore_uses_first_snapshot (ec : ElastiCache) (now : PyDatetime) :
    ∀ c r sv x xs nm, truthy c = true → truthy r = true →
      ec.describe_snapshots c = .ok sv →
      subscriptStr sv "Snapshots" = .ok (.list (x :: xs)) →
      subscriptStr x "SnapshotName" = .ok nm → truthy nm = true →
      lambda_handler ec now ⟨some (.str "restore_replication_group"), some c, some r⟩ =
        (jsonDumps (create_replication_group_from_snapshot ec r nm)).map
          (fun b => (⟨200, b⟩ : Response)) := by
  intro c r sv x xs nm hc hr hd hsub hname hnm
  simp [lambda_handler, getOr, truthy_action_restore, pyEqStr, hc, hr, get_snapshot,
    hd, hsub, hname, hnm, (show truthy (.list (x :: xs)) = true from rfl),
    subscriptNat, Bind.bind, Except.bind, pure, Except.pure, Except.map]

/-- Witness for C3: on a stub listing ordered non-recency-first whose
create call echoes back the chosen snapshot name, the first entry
(`old-snap`), not the newest, is restored. -/
theorem restore_uses_first_snapshot_witness :
    lambda_handler ecEcho dtW ⟨some (.str "restore_replication_group"), some (.str "cc"), some (.str "rg")⟩ =
      .ok ⟨200, "\"old-snap\""⟩ :=
  (restore_uses_first_snapshot ecEcho dtW (.str "cc") (.str "rg") snapListing
    (.dict [("SnapshotName", .str "old-snap")]) [.dict [("SnapshotName", .str "new-snap")]]
    (.str "old-snap") rfl rfl rfl rfl rfl rfl).trans rfl

theorem pyToJson_props (n : Nat) :
    (∀ v : PyVal, sizeOf v ≤ n →
      (hasObj v = true →
        ∃ t, pyToJson v = .error (.typeError ("Type " ++ t ++ " not serializable"))) ∧
      (hasObj v = false → ∃ j, pyToJson v = .ok j) ∧
      (∀ j, pyToJson v = .ok j → similar v j = true)) ∧
    (∀ xs : List PyVal, sizeOf xs ≤ n →
      (hasObjList xs = true →
        ∃ t, pyToJsonList xs = .error (.typeError ("Type " ++ t ++ " not serializable"))) ∧
      (hasObjList xs = false → ∃ ys, pyToJsonList xs = .ok ys) ∧
      (∀ ys, pyToJsonList xs = .ok ys → similarList xs ys = true)) ∧
    (∀ kvs : List (String × PyVal), sizeOf kvs ≤ n →
      (hasObjKVs kvs = true →
        ∃ t, pyToJsonKVs kvs = .error (.typeError ("Type " ++ t ++ " not serializable"))) ∧
      (hasObjKVs kvs = false → ∃ ws, pyToJsonKVs kvs = .ok ws) ∧
      (∀ ws, pyToJsonKVs kvs = .ok ws → similarKVs kvs ws = true)) := by
  induction n using Nat.strong_induction_on with
  | _ n ih =>
    refine ⟨?_, ?_, ?_⟩
    · intro v hv
      cases v with
      | str s =>
        refine ⟨fun h => by simp [hasObj] at h, fun _ => ⟨.str s, rfl⟩, fun j hj => ?_⟩
        simp [pyToJson] at hj
        subst hj
        simp [similar]
      | int m =>
        refine ⟨fun h => by simp [hasObj] at h, fun _ => ⟨.int m, rfl⟩, fun j hj => ?_⟩
        simp [pyToJson] at hj
        subst hj
        simp [similar]
      | bool b =>
        refine ⟨fun h => by simp [hasObj] at h, fun _ => ⟨.bool b, rfl⟩, fun j hj => ?_⟩
        simp [pyToJson] at hj
        subst hj
        simp [similar]
      | none =>
        refine ⟨fun h => by simp [hasObj] at h, fun _ => ⟨.null, rfl⟩, fun j hj => ?_⟩
        simp [pyToJson] at hj
        subst hj
        simp [similar]
      | datetime d =>
        refine ⟨fun h => by simp [hasObj] at h,
                fun _ => ⟨.str d.isoformat, by simp [pyToJson, json_serializer, primToJson, Except.bind]⟩,
                fun j hj => ?_⟩
        simp [pyToJson, json_serializer, primToJson, Except.bind] at hj
        subst hj
        simp [similar]
      | obj t =>
        refine ⟨fun _ => ⟨t, by simp [pyToJson, json_serializer, pyTypeName, Except.bind]⟩,
                fun h => by simp [hasObj] at h, fun j hj => ?_⟩
        simp [pyToJson, json_serializer, Except.bind] at hj
      | list xs =>
        have hxs : sizeOf xs < n := by simp at hv; omega
        obtain ⟨hLobj, hLok, hLsim⟩ := (ih (sizeOf xs) hxs).2.1 xs (le_refl _)
        refine ⟨?_, ?_, ?_⟩
        · intro h
          simp [hasObj] at h
          obtain ⟨t, ht⟩ := hLobj h
          exact ⟨t, by simp [pyToJson, ht, Except.map]⟩
        · intro h
          simp [hasObj] at h
          obtain ⟨ys, hys⟩ := hLok h
          exact ⟨.arr ys, by simp [pyToJson, hys, Except.map]⟩
        · intro j hj
          cases hys : pyToJsonList xs with
          | error e => simp [pyToJson, hys, Except.map] at hj
          | ok ys =>
            simp [pyToJson, hys, Except.map] at hj
            subst hj
            simp [similar]
            exact hLsim ys hys
      | dict kvs =>
        have hkvs : sizeOf kvs < n := by simp at hv; omega
        obtain ⟨hKobj, hKok, hKsim⟩ := (ih (sizeOf kvs) hkvs).2.2 kvs (le_refl _)
        refine ⟨?_, ?_, ?_⟩
        · intro h
          simp [hasObj] at h
          obtain ⟨t, ht⟩ := hKobj h
          exact ⟨t, by simp [pyToJson, ht, Except.map]⟩
        · intro h
          simp [hasObj] at h
          obtain ⟨ws, hws⟩ := hKok h
          exact ⟨.obj ws, by simp [pyToJson, hws, Except.map]⟩
        · intro j hj
          cases hws : pyToJsonKVs kvs with
          | error e => simp [pyToJson, hws, Except.map] at hj
          | ok ws =>
            simp [pyToJson, hws, Except.map] at hj
            subst hj
            simp [similar]
            exact hKsim ws hws
    · intro xs hxs
      cases xs with
      | nil =>
        refine ⟨fun h => by simp [hasObjList] at h, fun _ => ⟨[], rfl⟩, fun ys hys => ?_⟩
        simp [pyToJsonList] at hys
        subst hys
        simp [similarList]
      | cons x xs =>
        have hx : sizeOf x < n := by simp at hxs; omega
        have hxs' : sizeOf xs < n := by simp at hxs; omega
        obtain ⟨hVobj, hVok, hVsim⟩ := (ih (sizeOf x) hx).1 x (le_refl _)
        obtain ⟨hLobj, hLok, hLsim⟩ := (ih (sizeOf xs) hxs').2.1 xs (le_refl _)
        refine ⟨?_, ?_, ?_⟩
        · intro h
          simp [hasObjList] at h
          rcases h with h1 | h2
          · obtain ⟨t, ht⟩ := hVobj h1
            exact ⟨t, by simp [pyToJsonList, ht, Except.bind, Bind.bind]⟩
          · cases hx1 : hasObj x with
            | true =>
              obtain ⟨t, ht⟩ := hVobj hx1
              exact ⟨t, by simp [pyToJsonList, ht, Except.bind, Bind.bind]⟩
            | false =>
              obtain ⟨y, hy⟩ := hVok hx1
              obtain ⟨t, ht⟩ := hLobj h2
              exact ⟨t, by simp [pyToJsonList, hy, ht, Except.bind, Bind.bind]⟩
        · intro h
          simp [hasObjList] at h
          obtain ⟨y, hy⟩ := hVok h.1
          obtain ⟨ys, hys⟩ := hLok h.2
          exact ⟨y :: ys, by simp [pyToJsonList, hy, hys, Except.bind, Bind.bind, pure, Except.pure]⟩
        · intro ys hys
          cases hy : pyToJson x with
          | error e => simp [pyToJsonList, hy, Except.bind, Bind.bind] at hys
          | ok y =>
            cases hys' : pyToJsonList xs with
            | error e => simp [pyToJsonList, hy, hys', Except.bind, Bind.bind] at hys
            | ok ys' =>
              simp [pyToJsonList, hy, hys', Except.bind, Bind.bind, pure, Except.pure] at hys
              subst hys
              simp [similarList]
              exact ⟨hVsim y hy, hLsim ys' hys'⟩
    · intro kvs hkvs
      cases kvs with
      | nil =>
        refine ⟨fun h => by simp [hasObjKVs] at h, fun _ => ⟨[], rfl⟩, fun ws hws => ?_⟩
        simp [pyToJsonKVs] at hws
        subst hws
        simp [similarKVs]
      | cons kv kvs =>
        obtain ⟨k, v⟩ := kv
        have hv : sizeOf v < n := by simp at hkvs; omega
        have hkvs' : sizeOf kvs < n := by simp at hkvs; omega
        obtain ⟨hVobj, hVok, hVsim⟩ := (ih (sizeOf v) hv).1 v (le_refl _)
        obtain ⟨hKobj, hKok, hKsim⟩ := (ih (sizeOf kvs) hkvs').2.2 kvs (le_refl _)
        refine ⟨?_, ?_, ?_⟩
        · intro h
          simp [hasObjKVs] at h
          rcases h with h1 | h2
          · obtain ⟨t, ht⟩ := hVobj h1
            exact ⟨t, by simp [pyToJsonKVs, ht, Except.bind, Bind.bind]⟩
          · cases hv1 : hasObj v with
            | true =>
              obtain ⟨t, ht⟩ := hVobj hv1
              exact ⟨t, by simp [pyToJsonKVs, ht, Except.bind, Bind.bind]⟩
            | false =>
              obtain ⟨w, hw⟩ := hVok hv1
              obtain ⟨t, ht⟩ := hKobj h2
              exact ⟨t, by simp [pyToJsonKVs, hw, ht, Except.bind, Bind.bind]⟩
        · intro h
          simp [hasObjKVs] at h
          obtain ⟨w, hw⟩ := hVok h.1
          obtain ⟨ws, hws⟩ := hKok h.2
          exact ⟨(k, w) :: ws, by simp [pyToJsonKVs, hw, hws, Except.bind, Bind.bind, pure, Except.pure]⟩
        · intro ws hws
          cases hw : pyToJson v with
          | error e => simp [pyToJsonKVs, hw, Except.bind, Bind.bind] at hws
          | ok w =>
            cases hws' : pyToJsonKVs kvs with
            | error e => simp [pyToJsonKVs, hw, hws', Except.bind, Bind.bind] at hws
            | ok ws' =>
              simp [pyToJsonKVs, hw, hws', Except.bind, Bind.bind, pure, Except.pure] at hws
              subst hws
              simp [similarKVs]
              exact ⟨hVsim w hw, hKsim ws' hws'⟩

/-- C6: `json_serializer` rejects every non-primitive, non-container,
non-temporal value with a `TypeError` naming the offending type; a value
containing such an object anywhere makes the whole `json.dumps` fail the
same way; and on every action that serializes a remote response, that
failure propagates out of the dispatch as a hard failure instead of being
caught or dropped. -/
theorem not_serializable_propagates (ec : ElastiCache) (now : PyDatetime) :
    (∀ t, json_serializer (.obj t) =
      .error (.typeError ("Type " ++ t ++ " not serializable"))) ∧
    (∀ v, hasObj v = true →
      ∃ t, jsonDumps v = .error (.typeError ("Type " ++ t ++ " not serializable"))) ∧
    (∀ c r v err, truthy c = true →
      ec.create_snapshot c (generate_snapshot_name c now) = .ok v →
      jsonDumps v = .error err →
      lambda_handler ec now ⟨some (.str "create_snapshot"), some c, r⟩ = .error err) ∧
    (∀ c r v err, truthy r = true →
      ec.delete_replication_group r = .ok v →
      jsonDumps v = .error err →
      lambda_handler ec now ⟨some (.str "delete_replication_group"), c, some r⟩ = .error err) ∧
    (∀ c r nm v err, truthy c = true → truthy r = true →
      get_snapshot ec c = .ok nm → truthy nm = true →
      ec.create_replication_group (restoreParams r nm) = .ok v →
      jsonDumps v = .error err →
      lambda_handler ec now ⟨some (.str "restore_replication_group"), some c, some r⟩ =
        .error err) := by
  refine ⟨fun t => rfl, ?_, ?_, ?_, ?_⟩
  · intro v h
    obtain ⟨t, ht⟩ := ((pyToJson_props (sizeOf v)).1 v (le_refl _)).1 h
    exact ⟨t, by simp [jsonDumps, ht, Except.map]⟩
  · intro c r v err hc hok hdump
    simp [lambda_handler, getOr, truthy_action_create, pyEqStr, hc, create_snapshot,
      hok, hdump, Except.map]
  · intro c r v err hr hok hdump
    simp [lambda_handler, getOr, truthy_action_delete, pyEqStr, hr,
      delete_replication_group, hok, hdump, Except.map]
  · intro c r nm v err hc hr hs hnm hok hdump
    simp [lambda_handler, getOr, truthy_action_restore, pyEqStr, hc, hr, hs, hnm,
      Bind.bind, Except.bind, create_replication_group_from_snapshot, hok, hdump,
      Except.map]

/-- Witness for C6: a create-snapshot response containing a plain object
makes the dispatch fail with the NotSerializable TypeError. -/
theorem not_serializable_propagates_witness :
    lambda_handler ecObjResp dtW ⟨some (.str "create_snapshot"), some (.str "cc"), Option.none⟩ =
      .error (.typeError "Type <class \x27object\x27> not serializable") :=
  (not_serializable_propagates ecObjResp dtW).2.2.1 (.str "cc") Option.none
    (.dict [("Bad", .obj "<class \x27object\x27>")])
    (.typeError "Type <class \x27object\x27> not serializable") rfl rfl rfl

/-- C9: serialization renders every `datetime` as its ISO-8601 extended
text, and whenever it succeeds the output mirrors the input structurally —
equal primitive leaves, ISO text at temporal leaves, elementwise on lists
and memberwise (keys unchanged) on dicts. -/
theorem datetime_iso_structure_preserved :
    (∀ d, pyToJson (.datetime d) = .ok (.str d.isoformat)) ∧
    (∀ v j, pyToJson v = .ok j → similar v j = true) := by
  constructor
  · intro d
    simp [pyToJson, json_serializer, primToJson, Except.bind]
  · intro v j hj
    exact ((pyToJson_props (sizeOf v)).1 v (le_refl _)).2.2 j hj

/-- Witness for C9 on a body holding a timestamp and a nested list. -/
theorem datetime_iso_structure_preserved_witness :
    pyToJson (.dict [("At", .datetime ⟨2026, 1, 2, 3, 4, 5, 6⟩),
                     ("Xs", .list [.int 1, .str "a"])]) =
      .ok (.obj [("At", .str "2026-01-02T03:04:05.000006"),
                 ("Xs", .arr [.int 1, .str "a"])]) ∧
    similar (.dict [("At", .datetime ⟨2026, 1, 2, 3, 4, 5, 6⟩),
                    ("Xs", .list [.int 1, .str "a"])])
        (.obj [("At", .str "2026-01-02T03:04:05.000006"),
               ("Xs", .arr [.int 1, .str "a"])]) = true :=
  ⟨rfl, datetime_iso_structure_preserved.2 _ _ rfl⟩

end LambdaFn
